import Mathlib

/-!
Verification of the "Catalog View Service" (car viewer backend).

The definitions below are a shallow embedding of `src/backend/main.go`:
the data structures mirror the Go structs, Go maps are modelled as
association lists with a last-write-wins lookup defaulting to the empty
string (the Go zero value for a missing key), `strconv.Atoi` is modelled
by a partial integer parser, upstream fetch results are passed to the
handlers as `Option` values (`none` = the fetch failed for any reason),
and template parsing success is a boolean parameter.  Each HTTP handler
becomes a function from its request inputs and fetch results to a
`Response` value.
-/

/-- Mirrors the Go struct `Specification`. -/
structure Specification where
  Engine : String
  Horsepower : Int
  Transmission : String
  Drivetrain : String
deriving DecidableEq

/-- Mirrors the Go struct `Car`. -/
structure Car where
  ID : Int
  Name : String
  ManufacturerID : Int
  CategoryID : Int
  Year : Int
  Specifications : Specification
  Image : String
deriving DecidableEq

/-- Mirrors the Go struct `Category`. -/
structure Category where
  ID : Int
  Name : String
deriving DecidableEq

/-- Mirrors the Go struct `Manufacturer`. -/
structure Manufacturer where
  ID : Int
  Name : String
deriving DecidableEq

/-- Mirrors the Go struct `PageData` (home/search page). -/
structure PageData where
  Cars : List Car
  Query : String
deriving DecidableEq

/-- Mirrors the Go struct `DetailsPageData` (details page). -/
structure DetailsPageData where
  MainCar : Car
  Related : List Car
deriving DecidableEq

/-- An HTTP response of this service: either an error with a status code
(400 `http.StatusBadRequest`, 404 `http.StatusNotFound`,
500 `http.StatusInternalServerError`) or a rendered page. -/
inductive Response where
  | error (status : Nat)
  | homePage (data : PageData)
  | detailPage (data : DetailsPageData)
  | comparePage (cars : List Car)
deriving DecidableEq

/-- Model of Go `strings.ToLower`: lower-case every character. -/
def toLowerStr (s : String) : String :=
  ⟨s.data.map Char.toLower⟩

/-- `listContains s sub` models Go `strings.Contains` on character lists:
`sub` occurs as a contiguous run inside `s`. -/
def listContains (sub : List Char) : List Char → Bool
  | [] => sub.isEmpty
  | c :: rest => List.isPrefixOf sub (c :: rest) || listContains sub rest

/-- Model of Go `strings.Contains s sub`. -/
def strContains (s sub : String) : Bool :=
  listContains sub.data s.data

/-- Lookup in a Go `map[int]string` built by inserting the pairs in order
(last write wins); a missing key yields `""`, the Go zero value.
Models `catMap[car.CategoryID]` / `manMap[car.ManufacturerID]`. -/
def resolveName (m : List (Int × String)) (k : Int) : String :=
  m.foldl (fun acc p => if p.fst = k then p.snd else acc) ""

/-- One iteration of the filter loop of `homeHandler` (main.go lines
153-164): resolve and lower-case the category, manufacturer and car
names, and append the car when the query occurs in any of the three. -/
def filterStep (catMap manMap : List (Int × String)) (query : String)
    (acc : List Car) (car : Car) : List Car :=
  let catName := toLowerStr (resolveName catMap car.CategoryID)
  let manName := toLowerStr (resolveName manMap car.ManufacturerID)
  let carName := toLowerStr car.Name
  if strContains carName query || strContains catName query || strContains manName query then
    acc ++ [car]
  else
    acc

/-- The filter logic of `homeHandler` (main.go lines 148-167): lower-case
the query; if it is non-empty run the filter loop, otherwise keep the
full list. -/
def homeFilter (cars : List Car) (catMap manMap : List (Int × String)) (q : String) : List Car :=
  let query := toLowerStr q
  if query ≠ "" then
    cars.foldl (filterStep catMap manMap query) []
  else
    cars

/-- The match predicate written from the spec's words (section 4.2 step 4):
the lower-cased query is a substring of the lower-cased vehicle name, of
the lower-cased resolved category name, or of the lower-cased resolved
manufacturer name, where a reference absent from its lookup map resolves
to the empty string. -/
def specMatches (catMap manMap : List (Int × String)) (q : String) (car : Car) : Bool :=
  strContains (toLowerStr car.Name) (toLowerStr q) ||
  strContains (toLowerStr (resolveName catMap car.CategoryID)) (toLowerStr q) ||
  strContains (toLowerStr (resolveName manMap car.ManufacturerID)) (toLowerStr q)

/-- Value of a digit list, as accumulated by Go `strconv.Atoi`. -/
def digitsVal (l : List Char) : Nat :=
  l.foldl (fun n c => 10 * n + (c.toNat - 48)) 0

/-- Model of Go `strconv.Atoi`: optional leading sign, then at least one
digit and nothing else; any other input is an error (`none`).
(Machine-integer range errors are out of scope: ids are unbounded here.) -/
def atoi? (s : String) : Option Int :=
  match s.data with
  | [] => none
  | c :: rest =>
    if c = '+' then
      if rest ≠ [] ∧ rest.all Char.isDigit then some (digitsVal rest) else none
    else if c = '-' then
      if rest ≠ [] ∧ rest.all Char.isDigit then some (-(digitsVal rest : Int)) else none
    else if (c :: rest).all Char.isDigit then some (digitsVal (c :: rest)) else none

/-- Model of `id, _ := strconv.Atoi(idStr)`: the error is discarded and a
failed parse leaves the Go zero value `0`. -/
def atoiGo (s : String) : Int :=
  (atoi? s).getD 0

/-- The recommendation loop of `detailsHandler` (main.go lines 212-223):
append each car with the same `CategoryID` and a different `ID`, and
break as soon as three have been collected. -/
def relatedLoop (mainCar : Car) : List Car → List Car → List Car
  | acc, [] => acc
  | acc, c :: rest =>
    let acc' := if c.CategoryID == mainCar.CategoryID && c.ID != mainCar.ID then acc ++ [c] else acc
    if 3 ≤ acc'.length then acc' else relatedLoop mainCar acc' rest

/-- Recommendations derived from the full car list for a main car. -/
def relatedCars (mainCar : Car) (allCars : List Car) : List Car :=
  relatedLoop mainCar [] allCars

/-- `homeHandler` (main.go lines 122-182).  `carsResult` is the outcome of
`fetchCars` (mandatory); `categories` / `manufacturers` are the outcomes
of the tolerated fetches (a failed fetch leaves the Go nil slice, i.e.
`[]`); `templateOk` is whether `template.ParseFiles` succeeded. -/
def homeHandler (path : String) (carsResult : Option (List Car))
    (categories : List Category) (manufacturers : List Manufacturer)
    (q : String) (templateOk : Bool) : Response :=
  if path ≠ "/" then .error 404
  else
    match carsResult with
    | none => .error 500
    | some cars =>
      let catMap := categories.map (fun c => (c.ID, c.Name))
      let manMap := manufacturers.map (fun m => (m.ID, m.Name))
      let filteredCars := homeFilter cars catMap manMap q
      if templateOk then .homePage ⟨filteredCars, q⟩ else .error 500

/-- `detailsHandler` (main.go lines 185-238).  `fetchById` is the outcome
of `fetchCarByID` for each id (`none` = network, decode or non-200
failure); `allCars?` is the outcome of `fetchCars` for recommendations
(`none` = failure, which leaves the Go nil slice). -/
def detailsHandler (idStr : String) (fetchById : Int → Option Car)
    (allCars? : Option (List Car)) (templateOk : Bool) : Response :=
  if idStr = "" then .error 400
  else
    match atoi? idStr with
    | none => .error 400
    | some id =>
      match fetchById id with
      | none => .error 404
      | some mainCar =>
        let related := match allCars? with
          | none => []
          | some allCars => relatedCars mainCar allCars
        if templateOk then .detailPage ⟨mainCar, related⟩ else .error 500

/-- One iteration of the selection loop of `compareHandler` (main.go lines
252-258): parse the id permissively, attempt the fetch, and append the
car only when the fetch succeeded. -/
def compareStep (fetchById : Int → Option Car) (acc : List Car) (idStr : String) : List Car :=
  let id := atoiGo idStr
  match fetchById id with
  | some car => acc ++ [car]
  | none => acc

/-- The cars selected by `compareHandler`'s loop, in input order. -/
def compareSelected (ids : List String) (fetchById : Int → Option Car) : List Car :=
  ids.foldl (compareStep fetchById) []

/-- `compareHandler` (main.go lines 241-267). -/
def compareHandler (ids : List String) (fetchById : Int → Option Car)
    (templateOk : Bool) : Response :=
  if ids.length < 2 then .error 400
  else if templateOk then .comparePage (compareSelected ids fetchById) else .error 500

/-- Model of `tmpl.Execute(w, data)` (main.go lines 181, 237, 266): the
error it returns is discarded by all three handlers, so the response sent
to the client is the page render whether or not execution succeeds;
`executeOk` cannot influence the result. -/
def executeTemplate (executeOk : Bool) (page : Response) : Response :=
  page

/-- `homeHandler` with both template stages explicit: `templateOk` is
whether `template.ParseFiles` succeeded (checked, main.go lines 175-180)
and `executeOk` is whether `tmpl.Execute` succeeded (error discarded,
main.go line 181). -/
def homeHandlerExec (path : String) (carsResult : Option (List Car))
    (categories : List Category) (manufacturers : List Manufacturer)
    (q : String) (templateOk executeOk : Bool) : Response :=
  if path ≠ "/" then .error 404
  else
    match carsResult with
    | none => .error 500
    | some cars =>
      let catMap := categories.map (fun c => (c.ID, c.Name))
      let manMap := manufacturers.map (fun m => (m.ID, m.Name))
      let filteredCars := homeFilter cars catMap manMap q
      if templateOk then executeTemplate executeOk (.homePage ⟨filteredCars, q⟩)
      else .error 500

/-- `detailsHandler` with both template stages explicit: the
`tmpl.Execute` error is discarded at main.go line 237. -/
def detailsHandlerExec (idStr : String) (fetchById : Int → Option Car)
    (allCars? : Option (List Car)) (templateOk executeOk : Bool) : Response :=
  if idStr = "" then .error 400
  else
    match atoi? idStr with
    | none => .error 400
    | some id =>
      match fetchById id with
      | none => .error 404
      | some mainCar =>
        let related := match allCars? with
          | none => []
          | some allCars => relatedCars mainCar allCars
        if templateOk then executeTemplate executeOk (.detailPage ⟨mainCar, related⟩)
        else .error 500

/-- `compareHandler` with both template stages explicit: the
`tmpl.Execute` error is discarded at main.go line 266. -/
def compareHandlerExec (ids : List String) (fetchById : Int → Option Car)
    (templateOk executeOk : Bool) : Response :=
  if ids.length < 2 then .error 400
  else if templateOk then executeTemplate executeOk (.comparePage (compareSelected ids fetchById))
  else .error 500

/-- Sample data, used to instantiate universally quantified theorems. -/
def specX : Specification :=
  ⟨"V8", 400, "automatic", "RWD"⟩

/-- Sample car 1 (id 1, name "Model X", manufacturer 5, category 10). -/
def car1 : Car :=
  ⟨1, "Model X", 5, 10, 2021, specX, "x.png"⟩

/-- Sample car 2 (id 2, name "Model Y", manufacturer 6, category 10). -/
def car2 : Car :=
  ⟨2, "Model Y", 6, 10, 2022, specX, "y.png"⟩

/-- Sample car 3 (id 3, name "Other", manufacturer 5, category 20). -/
def car3 : Car :=
  ⟨3, "Other", 5, 20, 2020, specX, "o.png"⟩

/-! ### Helper lemmas -/

theorem toLowerStr_eq_empty_iff (s : String) : toLowerStr s = "" ↔ s = "" := by
  cases s with
  | mk l =>
    constructor
    · intro h
      have hl : l.map Char.toLower = [] := congrArg String.data h
      have : l = [] := List.map_eq_nil_iff.mp hl
      rw [this]
    · intro h
      rw [h]
      rfl

theorem foldl_filterStep (cm mm : List (Int × String)) (query : String) :
    ∀ (l acc : List Car),
      List.foldl (filterStep cm mm query) acc l =
        acc ++ l.filter (fun car =>
          strContains (toLowerStr car.Name) query ||
          strContains (toLowerStr (resolveName cm car.CategoryID)) query ||
          strContains (toLowerStr (resolveName mm car.ManufacturerID)) query) := by
  intro l
  induction l with
  | nil => intro acc; simp
  | cons car rest ih =>
    intro acc
    by_cases h : (strContains (toLowerStr car.Name) query ||
        strContains (toLowerStr (resolveName cm car.CategoryID)) query ||
        strContains (toLowerStr (resolveName mm car.ManufacturerID)) query) = true
    · simp only [List.foldl_cons, List.filter_cons, h, if_pos]
      have hstep : filterStep cm mm query acc car = acc ++ [car] := by
        simp only [filterStep]
        rw [if_pos h]
      rw [hstep, ih]
      simp
    · simp only [List.foldl_cons, List.filter_cons, h]
      have hstep : filterStep cm mm query acc car = acc := by
        simp only [filterStep]
        rw [if_neg h]
      rw [hstep, ih]
      simp

theorem relatedLoop_eq (v : Car) :
    ∀ (l acc : List Car), acc.length < 3 →
      relatedLoop v acc l =
        acc ++ (l.filter (fun c => c.CategoryID == v.CategoryID && c.ID != v.ID)).take
          (3 - acc.length) := by
  intro l
  induction l with
  | nil => intro acc _; simp [relatedLoop]
  | cons c rest ih =>
    intro acc hacc
    by_cases h : (c.CategoryID == v.CategoryID && c.ID != v.ID) = true
    · simp only [relatedLoop, h, if_pos, List.filter_cons]
      by_cases h3 : 3 ≤ (acc ++ [c]).length
      · rw [if_pos h3]
        have hlen : acc.length = 2 := by
          simp only [List.length_append, List.length_cons, List.length_nil] at h3
          omega
        rw [hlen]
        simp [List.take_cons, Nat.lt_irrefl]
      · rw [if_neg h3]
        have hlt : (acc ++ [c]).length < 3 := by omega
        rw [ih (acc ++ [c]) hlt]
        have hsub : 3 - acc.length = (3 - (acc ++ [c]).length) + 1 := by
          simp only [List.length_append, List.length_cons, List.length_nil] at *
          omega
        rw [hsub]
        simp [List.take_cons]
    · have hne : ¬(3 ≤ acc.length) := by omega
      simp only [relatedLoop]
      rw [if_neg h, if_neg hne]
      simp only [List.filter_cons]
      rw [if_neg h]
      exact ih acc hacc

theorem foldl_compareStep (f : Int → Option Car) :
    ∀ (ids : List String) (acc : List Car),
      List.foldl (compareStep f) acc ids =
        acc ++ ids.filterMap (fun s => f (atoiGo s)) := by
  intro ids
  induction ids with
  | nil => intro acc; simp
  | cons s rest ih =>
    intro acc
    simp only [List.foldl_cons, List.filterMap_cons]
    cases hf : f (atoiGo s) with
    | none =>
      have hstep : compareStep f acc s = acc := by
        simp [compareStep, hf]
      rw [hstep, ih]
    | some car =>
      have hstep : compareStep f acc s = acc ++ [car] := by
        simp [compareStep, hf]
      rw [hstep, ih]
      simp

theorem relatedCars_eq (v : Car) (allCars : List Car) :
    relatedCars v allCars =
      (allCars.filter (fun c => c.CategoryID == v.CategoryID && c.ID != v.ID)).take 3 := by
  have h := relatedLoop_eq v allCars [] (by simp)
  simpa [relatedCars] using h

theorem compareSelected_eq (ids : List String) (f : Int → Option Car) :
    compareSelected ids f = ids.filterMap (fun s => f (atoiGo s)) := by
  have h := foldl_compareStep f ids []
  simpa [compareSelected] using h

theorem atoi?_empty : atoi? "" = none := rfl

theorem ne_empty_of_atoi? {s : String} {id : Int} (hp : atoi? s = some id) : s ≠ "" := by
  intro he
  rw [he, atoi?_empty] at hp
  exact Option.noConfusion hp

/-! ### Claims -/

/-- Claim C1: for every vehicle list, lookup maps and non-empty query `q`,
the search filter returns exactly those vehicles for which the
lower-cased `q` is a substring of the lower-cased name, the lower-cased
resolved category name, or the lower-cased resolved manufacturer name
(an absent reference resolving to the empty string), preserving upstream
order: the source's filter equals `List.filter` of the spec's predicate. -/
theorem spec_C1 (cars : List Car) (catMap manMap : List (Int × String)) (q : String)
    (h : q ≠ "") :
    homeFilter cars catMap manMap q = cars.filter (specMatches catMap manMap q) := by
  have hq : toLowerStr q ≠ "" := fun hc => h ((toLowerStr_eq_empty_iff q).mp hc)
  simp only [homeFilter]
  rw [if_pos hq, foldl_filterStep]
  simp only [List.nil_append]
  rfl

/-- Instance of `spec_C1` at the spec's sample data with query "model". -/
theorem spec_C1_witness :
    ("model" : String) ≠ "" ∧
      homeFilter [car1, car2, car3] [(10, "SUV"), (20, "Sedan")] [(5, "Tesla"), (6, "Toyota")]
          "model" =
        List.filter (specMatches [(10, "SUV"), (20, "Sedan")] [(5, "Tesla"), (6, "Toyota")] "model")
          [car1, car2, car3] :=
  ⟨by decide,
   spec_C1 [car1, car2, car3] [(10, "SUV"), (20, "Sedan")] [(5, "Tesla"), (6, "Toyota")] "model"
     (by decide)⟩

/-- Claim C2: the recommendation list never contains the main vehicle,
every member shares its `CategoryID`, and it has at most 3 elements. -/
theorem spec_C2 (v : Car) (allCars : List Car) :
    (relatedCars v allCars).length ≤ 3 ∧
      (relatedCars v allCars).all (fun c => c.CategoryID == v.CategoryID && c.ID != v.ID) = true := by
  rw [relatedCars_eq]
  constructor
  · exact List.length_take_le 3 _
  · rw [List.all_eq_true]
    intro c hc
    have hc' : c ∈ allCars.filter (fun c => c.CategoryID == v.CategoryID && c.ID != v.ID) :=
      List.mem_of_mem_take hc
    exact (List.mem_filter.mp hc').2

/-- Claim C3: the recommendation list is exactly the first at-most-3
qualifying vehicles in upstream encounter order (a prefix-stop, not a
ranked top-3): it equals `take 3` of the filtered upstream list. -/
theorem spec_C3 (v : Car) (allCars : List Car) :
    relatedCars v allCars =
      (allCars.filter (fun c => c.CategoryID == v.CategoryID && c.ID != v.ID)).take 3 :=
  relatedCars_eq v allCars

/-- Claim C9: filtering with the empty query is the identity on the
vehicle list. -/
theorem spec_C9 (cars : List Car) (catMap manMap : List (Int × String)) :
    homeFilter cars catMap manMap "" = cars := by
  have h0 : toLowerStr "" = "" := rfl
  simp only [homeFilter]
  exact if_neg (fun hne => hne h0)

/-- Claim C4: the detail handler answers 400 exactly when the id is absent
or does not parse as an integer; once the id parses, any failure of the
single-vehicle fetch is collapsed to one 404, never a 500. -/
theorem spec_C4 :
    (∀ (idStr : String) (f : Int → Option Car) (ac : Option (List Car)) (t : Bool),
        detailsHandler idStr f ac t = .error 400 ↔ idStr = "" ∨ atoi? idStr = none) ∧
    (∀ (idStr : String) (f : Int → Option Car) (ac : Option (List Car)) (t : Bool) (id : Int),
        atoi? idStr = some id → f id = none → detailsHandler idStr f ac t = .error 404) := by
  constructor
  · intro idStr f ac t
    simp only [detailsHandler]
    by_cases he : idStr = ""
    · rw [if_pos he]
      simp [he]
    · rw [if_neg he]
      cases hp : atoi? idStr with
      | none => simp [he]
      | some id =>
        cases hf : f id with
        | none => simp [he, hf]
        | some mainCar =>
          cases t with
          | false => simp [he, hf]
          | true => simp [he, hf]
  · intro idStr f ac t id hp hf
    have he : idStr ≠ "" := ne_empty_of_atoi? hp
    simp only [detailsHandler]
    rw [if_neg he, hp]
    simp [hf]

/-- Instance of `spec_C4`: a non-numeric id yields 400 and a failing fetch
for a parsed id yields 404. -/
theorem spec_C4_witness :
    (detailsHandler "x7" (fun _ => none) none true = .error 400 ↔
      "x7" = "" ∨ atoi? "x7" = none) ∧
    detailsHandler "7" (fun _ => none) none true = .error 404 :=
  ⟨spec_C4.1 "x7" (fun _ => none) none true,
   spec_C4.2 "7" (fun _ => none) none true 7 (by decide) rfl⟩

/-- Claim C5: the comparison handler answers 400 exactly when fewer than 2
ids are supplied; otherwise (template ok) it renders exactly the vehicles
whose per-id fetch succeeded, in input order, failed ids silently
omitted, even when fewer than 2 (or zero) survive. -/
theorem spec_C5 :
    (∀ (ids : List String) (f : Int → Option Car) (t : Bool),
        compareHandler ids f t = .error 400 ↔ ids.length < 2) ∧
    (∀ (ids : List String) (f : Int → Option Car),
        2 ≤ ids.length →
          compareHandler ids f true = .comparePage (ids.filterMap (fun s => f (atoiGo s)))) := by
  constructor
  · intro ids f t
    simp only [compareHandler]
    by_cases h : ids.length < 2
    · rw [if_pos h]
      simp [h]
    · rw [if_neg h]
      cases t with
      | false => simp [h]
      | true => simp [h]
  · intro ids f h2
    have h : ¬ids.length < 2 := by omega
    simp only [compareHandler]
    rw [if_neg h]
    simp [compareSelected_eq]

/-- Instance of `spec_C5`: one id yields 400; two ids render the fetched
subset. -/
theorem spec_C5_witness :
    (compareHandler ["1"] (fun _ => some car1) true = .error 400 ↔
      (["1"] : List String).length < 2) ∧
    compareHandler ["1", "2"] (fun _ => some car1) true =
      .comparePage (List.filterMap (fun s => (fun _ => some car1) (atoiGo s)) ["1", "2"]) :=
  ⟨spec_C5.1 ["1"] (fun _ => some car1) true,
   spec_C5.2 ["1", "2"] (fun _ => some car1) (by decide)⟩

/-- Claim C6, counterexample to the claim as stated: template rendering
can fail at the `tmpl.Execute` stage (`executeOk = false`) after a
successful `template.ParseFiles`, and then none of the three handlers
responds 500 — the Execute error is discarded at main.go lines 181, 237
and 266 and the page response goes out unchanged. -/
theorem spec_C6_counterexample :
    homeHandlerExec "/" (some [car1]) [] [] "q" true false ≠ Response.error 500 ∧
    detailsHandlerExec "1" (fun _ => some car1) none true false ≠ Response.error 500 ∧
    compareHandlerExec ["1", "2"] (fun _ => some car1) true false ≠ Response.error 500 := by
  refine ⟨?_, ?_, ?_⟩ <;> decide

/-- Claim C6 as amended: every handler (catalog, detail, comparison)
responds 500 when template parsing (`template.ParseFiles`) fails,
whatever the execution outcome; an error from `tmpl.Execute` is
discarded, so the response never depends on the execution outcome and an
execution-stage rendering failure produces no 500. -/
theorem spec_C6_amended :
    (∀ (cars : List Car) (cats : List Category) (mans : List Manufacturer) (q : String) (e : Bool),
        homeHandlerExec "/" (some cars) cats mans q false e = .error 500) ∧
    (∀ (idStr : String) (f : Int → Option Car) (ac : Option (List Car)) (id : Int) (car : Car)
        (e : Bool), atoi? idStr = some id → f id = some car →
          detailsHandlerExec idStr f ac false e = .error 500) ∧
    (∀ (ids : List String) (f : Int → Option Car) (e : Bool),
        2 ≤ ids.length → compareHandlerExec ids f false e = .error 500) ∧
    (∀ (path : String) (carsResult : Option (List Car)) (cats : List Category)
        (mans : List Manufacturer) (q : String) (t : Bool),
        homeHandlerExec path carsResult cats mans q t false =
          homeHandlerExec path carsResult cats mans q t true) ∧
    (∀ (idStr : String) (f : Int → Option Car) (ac : Option (List Car)) (t : Bool),
        detailsHandlerExec idStr f ac t false = detailsHandlerExec idStr f ac t true) ∧
    (∀ (ids : List String) (f : Int → Option Car) (t : Bool),
        compareHandlerExec ids f t false = compareHandlerExec ids f t true) := by
  refine ⟨?_, ?_, ?_, ?_, ?_, ?_⟩
  · intro cars cats mans q e
    simp [homeHandlerExec]
  · intro idStr f ac id car e hp hf
    have he : idStr ≠ "" := ne_empty_of_atoi? hp
    simp only [detailsHandlerExec]
    rw [if_neg he, hp]
    simp [hf]
  · intro ids f e h2
    have h : ¬ids.length < 2 := by omega
    simp only [compareHandlerExec]
    rw [if_neg h]
    rfl
  · intro path carsResult cats mans q t
    rfl
  · intro idStr f ac t
    rfl
  · intro ids f t
    rfl

/-- Instance of `spec_C6_amended`: all three handlers answer 500 when the
template fails to parse. -/
theorem spec_C6_amended_witness :
    homeHandlerExec "/" (some [car1]) [] [] "q" false true = .error 500 ∧
    detailsHandlerExec "1" (fun _ => some car1) none false true = .error 500 ∧
    compareHandlerExec ["1", "2"] (fun _ => none) false true = .error 500 :=
  ⟨spec_C6_amended.1 [car1] [] [] "q" true,
   spec_C6_amended.2.1 "1" (fun _ => some car1) none 1 car1 true (by decide) rfl,
   spec_C6_amended.2.2.1 ["1", "2"] (fun _ => none) true (by decide)⟩

/-- Claim C7: in the comparison handler a non-numeric id parses to the zero
value 0 instead of aborting, and the per-id fetch is then attempted with
id 0: appending such an id to the input appends the outcome of fetching
id 0 to the selection. -/
theorem spec_C7 (s : String) (f : Int → Option Car) (ids : List String)
    (h : atoi? s = none) :
    atoiGo s = 0 ∧
      compareSelected (ids ++ [s]) f = compareSelected ids f ++ (f 0).toList := by
  have h0 : atoiGo s = 0 := by simp [atoiGo, h]
  refine ⟨h0, ?_⟩
  simp only [compareSelected, List.foldl_append, List.foldl_cons, List.foldl_nil]
  simp only [compareStep, h0]
  cases hf : f 0 with
  | none => simp [Option.toList]
  | some car => simp [Option.toList]

/-- Instance of `spec_C7` at the non-numeric id "abc". -/
theorem spec_C7_witness :
    atoi? "abc" = none ∧
      (atoiGo "abc" = 0 ∧
        compareSelected (["1"] ++ ["abc"]) (fun _ => some car1) =
          compareSelected ["1"] (fun _ => some car1) ++
            ((fun _ => some car1) (0 : Int)).toList) :=
  ⟨by decide, spec_C7 "abc" (fun _ => some car1) ["1"] (by decide)⟩

/-- Claim C8: when the main vehicle was fetched but the full-list fetch for
recommendations failed, the detail handler still renders the page with an
empty recommendation list (no HTTP error). -/
theorem spec_C8 (idStr : String) (f : Int → Option Car) (id : Int) (car : Car)
    (hp : atoi? idStr = some id) (hf : f id = some car) :
    detailsHandler idStr f none true = .detailPage ⟨car, []⟩ := by
  have he : idStr ≠ "" := ne_empty_of_atoi? hp
  simp only [detailsHandler]
  rw [if_neg he, hp]
  simp [hf]

/-- Instance of `spec_C8` at id "1". -/
theorem spec_C8_witness :
    detailsHandler "1" (fun _ => some car1) none true = .detailPage ⟨car1, []⟩ :=
  spec_C8 "1" (fun _ => some car1) 1 car1 (by decide) rfl

/-- Claim C10: the comparison handler does not deduplicate ids: the same id
twice passes the at-least-2 check and, when its fetch succeeds, the same
vehicle appears twice in the rendered list. -/
theorem spec_C10 (s : String) (f : Int → Option Car) (car : Car)
    (hf : f (atoiGo s) = some car) :
    compareHandler [s, s] f true = .comparePage [car, car] := by
  have hlen : ¬([s, s] : List String).length < 2 := by simp
  simp only [compareHandler]
  rw [if_neg hlen]
  simp [compareSelected_eq, hf]

/-- Instance of `spec_C10` at the duplicated id "2". -/
theorem spec_C10_witness :
    compareHandler ["2", "2"] (fun _ => some car2) true = .comparePage [car2, car2] :=
  spec_C10 "2" (fun _ => some car2) car2 rfl
